import Mathlib

/-!
Shallow embedding of `src/r_server.py` (an MCP server exposing R-language
tooling).  Pure Python string manipulation is translated to Lean functions on
`String`/`List Char`; process-wide state (`MOUNTED_DIRECTORY`) becomes explicit
state passing; the filesystem and the external processes (Rscript, Docker,
`base64` codec, `Path.resolve`, `mkdir`) are the boundary and appear as
environment records whose fields the theorems quantify over.  Machine-level
details (floating point `size_mb` rounding, timestamps, stderr logging) are
outside the claims and are not modelled.
-/

namespace RServer

/-! ### Python string primitives

The Python code uses `in` (substring test), `str.split(sep)`, `str.strip()`,
`str.lower()`, `pathlib.Path(...).suffix` and `re.sub` over a character class.
They are reimplemented here structurally over `List Char` so that every guard
of the embedding is kernel-evaluable.  `pyStrip` strips the six ASCII
whitespace characters Python's `str.strip` strips (the further Unicode
whitespace Python would also strip does not occur in any input considered
here). -/

/-- Substring test: `containsSub needle hay` is Python `needle in hay`. -/
def containsSub (needle : List Char) : List Char → Bool
  | [] => needle.isEmpty
  | c :: rest => needle.isPrefixOf (c :: rest) || containsSub needle rest

/-- Python `sub in s`. -/
def strContains (s sub : String) : Bool :=
  containsSub sub.data s.data

/-- Python `s.startswith(pre)` / the root test of `PurePosixPath.is_absolute`. -/
def strStartsWith (s pre : String) : Bool :=
  pre.data.isPrefixOf s.data

/-- Fuel-indexed worker for `pySplit`; fuel bounds the number of characters
still to be consumed, so the recursion is structural. -/
def pySplitAux (sep : List Char) : Nat → List Char → List Char → List (List Char)
  | _, acc, [] => [acc.reverse]
  | 0, acc, rest => [acc.reverse ++ rest]
  | fuel + 1, acc, c :: rest =>
    if sep.isPrefixOf (c :: rest) then
      acc.reverse :: pySplitAux sep fuel [] (List.drop (sep.length - 1) rest)
    else
      pySplitAux sep fuel (c :: acc) rest

/-- Python `s.split(sep)` for a non-empty separator: leftmost, non-overlapping
occurrences, keeping empty pieces. -/
def pySplit (s sep : String) : List String :=
  (pySplitAux sep.data s.data.length [] s.data).map List.asString

/-- The whitespace characters stripped by Python `str.strip()` on the ASCII
range. -/
def isPySpace (c : Char) : Bool :=
  c = ' ' || c = '\t' || c = '\n' || c = '\r' || c = '\x0b' || c = '\x0c'

/-- Python `s.strip()`. -/
def pyStrip (s : String) : String :=
  (((s.data.dropWhile isPySpace).reverse.dropWhile isPySpace).reverse).asString

/-- Python `s.lower()` (ASCII range; the filenames and extensions considered
here are ASCII). -/
def pyLower (s : String) : String :=
  (s.data.map Char.toLower).asString

/-- Index of the last occurrence of `c`, if any (Python `s.rfind(c)` with the
miss reported as `none` instead of `-1`). -/
def lastIdxOf (c : Char) : List Char → Option Nat
  | [] => none
  | x :: xs =>
    match lastIdxOf c xs with
    | some i => some (i + 1)
    | none => if x = c then some 0 else none

/-- `pathlib.PurePath(name).suffix` for a `name` free of path separators:
the substring from the last dot on, unless that dot is the first or the last
character, in which case the suffix is empty. -/
def pathSuffix (name : String) : String :=
  match lastIdxOf '.' name.data with
  | none => ""
  | some i =>
    if 0 < i ∧ i < name.data.length - 1 then (name.data.drop i).asString else ""

/-- Python `l[i]` guarded by prior membership tests; out-of-range access (an
`IndexError` in Python) is unreachable at every use site. -/
def pyGet (l : List String) (i : Nat) : String :=
  l.getD i ""

/-! ### Filesystem model

Only the regular-file contents matter to the claims, so the filesystem is an
association list from full path to byte content (`List Nat`), a later entry
shadowed by an earlier one; `fsWrite` models `Path.write_bytes` (truncating
replacement). -/

def FS : Type := List (String × List Nat)

/-- `Path.exists()` / `Path.read_bytes()` combined: the bytes stored at `p`,
if a file is there. -/
def fsLookup (fs : FS) (p : String) : Option (List Nat) :=
  (List.find? (fun e => e.1 = p) fs).map (fun e => e.2)

/-- `Path.write_bytes`: create or truncate-and-replace. -/
def fsWrite (fs : FS) (p : String) (data : List Nat) : FS :=
  (p, data) :: fs

/-! ### File Gateway: `upload_file` (src/r_server.py lines 194-315) -/

/-- Boundary of the `base64` library: `base64.b64decode` either returns bytes
or raises (`binascii.Error`), which the source catches. -/
structure UploadEnv where
  b64decode : String → Except String (List Nat)

/-- The result dictionary of `upload_file`.  Keys present only on some paths
(`path`, `size_bytes`, `extension`) are `Option`s; the float `size_mb` and
the float-formatted `details` text of the size-failure record (rounded
divisions) are not modelled — that `details` is kept as `""`. -/
structure UploadResult where
  success : Bool
  filename : String
  message : String
  details : String
  path : Option String
  size_bytes : Option Nat
  extension : Option String
deriving DecidableEq, Repr

/-- `re.sub(r'[<>:"|?*]', '_', filename)`: every occurrence of one of the
seven characters in the class is replaced by an underscore. -/
def sanitizeFilename (f : String) : String :=
  (f.data.map (fun c =>
    if c ∈ ['<', '>', ':', '"', '|', '?', '*'] then '_' else c)).asString

/-- The extension whitelist of `upload_file` (a Python `set`, its iteration
order implementation-defined; kept here as a list in the source's literal
order, used only through membership). -/
def allowed_extensions : List String :=
  [".xlsx", ".xls", ".csv", ".txt", ".tsv", ".json"]

/-- The 10 MiB payload bound of `upload_file`. -/
def max_size : Nat := 10 * 1024 * 1024

/-- `upload_file(file_content, filename, overwrite)` (lines 194-315).
`base_dir` is the value of `get_working_directory()`; the `mkdir` of the
`r_workspace` subdirectory only creates a directory and is a no-op on this
file model.  Returns the result dictionary and the filesystem afterwards. -/
def upload_file (env : UploadEnv) (fs : FS) (base_dir : String)
    (file_content : String) (filename : String) (overwrite : Bool) :
    UploadResult × FS :=
  if filename = "" || strContains filename ".." || strContains filename "/" ||
      strContains filename "\\" then
    ({ success := false, filename := filename,
       message := "Invalid filename. No path traversal allowed.",
       details := "", path := none, size_bytes := none, extension := none }, fs)
  else
    let filename := sanitizeFilename filename
    let file_ext := pyLower (pathSuffix filename)
    if !(allowed_extensions.contains file_ext) then
      ({ success := false, filename := filename,
         message := "File type not allowed. Supported: " ++
           String.intercalate ", " allowed_extensions,
         details := "Received extension: " ++ file_ext,
         path := none, size_bytes := none, extension := none }, fs)
    else
      match env.b64decode file_content with
      | .error e =>
        ({ success := false, filename := filename,
           message := "Invalid base64 content", details := e,
           path := none, size_bytes := none, extension := none }, fs)
      | .ok file_data =>
        let file_size := file_data.length
        if file_size > max_size then
          ({ success := false, filename := filename,
             message := "File too large. Maximum size: 10MB",
             details := "", path := none, size_bytes := none,
             extension := none }, fs)
        else
          let file_path := base_dir ++ "/r_workspace/" ++ filename
          if (fsLookup fs file_path).isSome && !overwrite then
            ({ success := false, filename := filename,
               message := "File already exists. Use overwrite=true to replace it.",
               details := "Existing file size: " ++
                 toString ((fsLookup fs file_path).getD []).length ++ " bytes",
               path := none, size_bytes := none, extension := none }, fs)
          else
            let fs' := fsWrite fs file_path file_data
            match fsLookup fs' file_path with
            | none =>
              ({ success := false, filename := filename,
                 message := "Failed to write file", details := "",
                 path := none, size_bytes := none, extension := none }, fs')
            | some written =>
              ({ success := true, filename := filename,
                 message := "File uploaded successfully",
                 details := "Saved to R workspace directory",
                 path := some file_path, size_bytes := some written.length,
                 extension := some file_ext }, fs')

/-- Writing a file and reading it back at the same path yields the written
bytes. -/
theorem fsLookup_fsWrite_self (fs : FS) (p : String) (d : List Nat) :
    fsLookup (fsWrite fs p d) p = some d := by
  simp [fsLookup, fsWrite, List.find?]

/-- A concrete base64 boundary used by the witnesses: one payload decodes to
three bytes, one input is rejected by the codec. -/
def uploadEnv0 : UploadEnv :=
  { b64decode := fun s =>
      if s = "%%%" then .error "Invalid base64-encoded string" else .ok [1, 2, 3] }

/-- A concrete pre-existing upload used by the witnesses. -/
def uploadFs0 : FS := [("/data/r_workspace/a.csv", [9, 9])]

/-- C2: a filename containing `".."`, `"/"` or `"\"` makes `upload_file`
return the path-traversal failure record and leave the filesystem unchanged
(no file is written). -/
theorem upload_file_rejects_traversal (env : UploadEnv) (fs : FS)
    (bd content fn : String) (ow : Bool)
    (h : strContains fn ".." = true ∨ strContains fn "/" = true ∨
      strContains fn "\\" = true) :
    (upload_file env fs bd content fn ow).1.success = false ∧
    (upload_file env fs bd content fn ow).1.message =
      "Invalid filename. No path traversal allowed." ∧
    (upload_file env fs bd content fn ow).2 = fs := by
  have hg : (fn = "" || strContains fn ".." || strContains fn "/" ||
      strContains fn "\\") = true := by
    rcases h with h | h | h <;> simp [h]
  unfold upload_file
  rw [if_pos hg]
  exact ⟨rfl, rfl, rfl⟩

/-- Witness for `upload_file_rejects_traversal` at the filename `"../a.csv"`. -/
theorem upload_file_rejects_traversal_witness :
    (upload_file uploadEnv0 uploadFs0 "/data" "x" "../a.csv" false).1.success = false ∧
    (upload_file uploadEnv0 uploadFs0 "/data" "x" "../a.csv" false).2 = uploadFs0 :=
  have h := upload_file_rejects_traversal uploadEnv0 uploadFs0 "/data" "x" "../a.csv"
    false (Or.inl (by decide))
  ⟨h.1, h.2.2⟩

/-- C3: with a valid filename and allowed extension, a decoded payload larger
than 10 MiB makes `upload_file` return the size failure record and leave the
filesystem unchanged, while a payload of at most 10 MiB is never rejected with
the size message. -/
theorem upload_file_enforces_size_limit (env : UploadEnv) (fs : FS)
    (bd content fn : String) (ow : Bool) (data : List Nat)
    (hfn : (fn = "" || strContains fn ".." || strContains fn "/" ||
      strContains fn "\\") = false)
    (hext : pyLower (pathSuffix (sanitizeFilename fn)) ∈ allowed_extensions)
    (hdec : env.b64decode content = .ok data) :
    (data.length > max_size →
      (upload_file env fs bd content fn ow).1.success = false ∧
      (upload_file env fs bd content fn ow).1.message =
        "File too large. Maximum size: 10MB" ∧
      (upload_file env fs bd content fn ow).2 = fs) ∧
    (data.length ≤ max_size →
      (upload_file env fs bd content fn ow).1.message ≠
        "File too large. Maximum size: 10MB") := by
  constructor
  · intro hbig
    simp [upload_file, hfn, hext, hdec, hbig]
  · intro hsmall
    have hnotbig : ¬ (data.length > max_size) := by omega
    by_cases h4 : ((fsLookup fs (bd ++ "/r_workspace/" ++ sanitizeFilename fn)).isSome
        && !ow) = true
    · simp [upload_file, hfn, hext, hdec, hnotbig, h4]
    · simp [upload_file, hfn, hext, hdec, hnotbig, h4, fsLookup_fsWrite_self]

/-- Witness for `upload_file_enforces_size_limit`: a three-byte payload is not
rejected for size. -/
theorem upload_file_enforces_size_limit_witness :
    (upload_file uploadEnv0 [] "/data" "x" "b.csv" false).1.message ≠
      "File too large. Maximum size: 10MB" :=
  (upload_file_enforces_size_limit uploadEnv0 [] "/data" "x" "b.csv" false [1, 2, 3]
    (by decide) (by decide) rfl).2 (by decide)

/-- C4: if a file already exists at the target path and `overwrite` is false,
`upload_file` fails and the stored bytes are unchanged; whenever `upload_file`
reports success, the bytes stored at the target path are exactly the decoded
payload (round-trip). -/
theorem upload_file_no_overwrite_roundtrip (env : UploadEnv) (fs : FS)
    (bd content fn : String) (ow : Bool) :
    (∀ old, ow = false →
      fsLookup fs (bd ++ "/r_workspace/" ++ sanitizeFilename fn) = some old →
      (upload_file env fs bd content fn ow).1.success = false ∧
      (upload_file env fs bd content fn ow).2 = fs ∧
      fsLookup (upload_file env fs bd content fn ow).2
        (bd ++ "/r_workspace/" ++ sanitizeFilename fn) = some old) ∧
    (∀ data, env.b64decode content = .ok data →
      (upload_file env fs bd content fn ow).1.success = true →
      fsLookup (upload_file env fs bd content fn ow).2
        (bd ++ "/r_workspace/" ++ sanitizeFilename fn) = some data) := by
  constructor
  · intro old how hex
    subst how
    by_cases h1 : (fn = "" || strContains fn ".." || strContains fn "/" ||
        strContains fn "\\") = true
    · simp [upload_file, h1, hex]
    · rw [Bool.not_eq_true] at h1
      by_cases h2 : pyLower (pathSuffix (sanitizeFilename fn)) ∈ allowed_extensions
      · rcases hdec : env.b64decode content with e | data
        · simp [upload_file, h1, h2, hdec, hex]
        · by_cases h3 : data.length > max_size
          · simp [upload_file, h1, h2, hdec, h3, hex]
          · simp [upload_file, h1, h2, hdec, h3, hex]
      · simp [upload_file, h1, h2, hex]
  · intro data hdec hsucc
    by_cases h1 : (fn = "" || strContains fn ".." || strContains fn "/" ||
        strContains fn "\\") = true
    · simp [upload_file, h1] at hsucc
    · rw [Bool.not_eq_true] at h1
      by_cases h2 : pyLower (pathSuffix (sanitizeFilename fn)) ∈ allowed_extensions
      · by_cases h3 : data.length > max_size
        · simp [upload_file, h1, h2, hdec, h3] at hsucc
        · by_cases h4 : ((fsLookup fs (bd ++ "/r_workspace/" ++ sanitizeFilename fn)).isSome
              && !ow) = true
          · simp [upload_file, h1, h2, hdec, h3, h4] at hsucc
          · simp [upload_file, h1, h2, hdec, h3, h4, fsLookup_fsWrite_self]
      · simp [upload_file, h1, h2, hdec] at hsucc

/-- Witness for `upload_file_no_overwrite_roundtrip`: re-uploading `a.csv`
without `overwrite` fails and keeps the two stored bytes. -/
theorem upload_file_no_overwrite_roundtrip_witness :
    (upload_file uploadEnv0 uploadFs0 "/data" "x" "a.csv" false).1.success = false ∧
    fsLookup (upload_file uploadEnv0 uploadFs0 "/data" "x" "a.csv" false).2
      "/data/r_workspace/a.csv" = some [9, 9] :=
  have h := (upload_file_no_overwrite_roundtrip uploadEnv0 uploadFs0 "/data" "x"
    "a.csv" false).1 [9, 9] rfl (by decide)
  ⟨h.1, h.2.2⟩

/-- C10: once the traversal check passes, every later branch of `upload_file`
reports the rewritten (sanitized) filename: illegal characters become
underscores, the extension whitelist is applied to the rewritten name, and a
successful upload is persisted and reported under the rewritten name. -/
theorem upload_file_sanitizes_filename (env : UploadEnv) (fs : FS)
    (bd content fn : String) (ow : Bool)
    (hfn : (fn = "" || strContains fn ".." || strContains fn "/" ||
      strContains fn "\\") = false) :
    (upload_file env fs bd content fn ow).1.filename = sanitizeFilename fn ∧
    (pyLower (pathSuffix (sanitizeFilename fn)) ∉ allowed_extensions →
      (upload_file env fs bd content fn ow).1.success = false) ∧
    ((upload_file env fs bd content fn ow).1.success = true →
      (upload_file env fs bd content fn ow).1.extension =
        some (pyLower (pathSuffix (sanitizeFilename fn))) ∧
      pyLower (pathSuffix (sanitizeFilename fn)) ∈ allowed_extensions ∧
      (upload_file env fs bd content fn ow).1.path =
        some (bd ++ "/r_workspace/" ++ sanitizeFilename fn) ∧
      ∀ data, env.b64decode content = .ok data →
        fsLookup (upload_file env fs bd content fn ow).2
          (bd ++ "/r_workspace/" ++ sanitizeFilename fn) = some data) := by
  by_cases h2 : pyLower (pathSuffix (sanitizeFilename fn)) ∈ allowed_extensions
  · rcases hdec : env.b64decode content with e | data
    · simp [upload_file, hfn, h2, hdec]
    · by_cases h3 : data.length > max_size
      · simp [upload_file, hfn, h2, hdec, h3]
      · by_cases h4 : ((fsLookup fs (bd ++ "/r_workspace/" ++ sanitizeFilename fn)).isSome
            && !ow) = true
        · simp [upload_file, hfn, h2, hdec, h3, h4]
        · simp [upload_file, hfn, h2, hdec, h3, h4, fsLookup_fsWrite_self]
  · simp [upload_file, hfn, h2]

/-- Witness for `upload_file_sanitizes_filename`: the caller supplies
`"a?.csv"` but the file is reported as `"a_.csv"`. -/
theorem upload_file_sanitizes_filename_witness :
    (upload_file uploadEnv0 [] "/data" "x" "a?.csv" false).1.filename = "a_.csv" :=
  ((upload_file_sanitizes_filename uploadEnv0 [] "/data" "x" "a?.csv" false
    (by decide)).1).trans (by decide)

/-! ### Workspace Resolver: `mount_directory` / `get_working_directory`
(src/r_server.py lines 106-192)

The process-wide `MOUNTED_DIRECTORY` global becomes an explicit
`Option String`.  The `pathlib`/`os` boundary is an environment record:
`resolvePath` is `Path(...).resolve()` (on a real POSIX system its result is
always absolute), `mkdirResult` is `Path.mkdir(exist_ok=True)`, which can
still raise, e.g. `PermissionError` on a readable but unwritable parent, and
`listDir` is `Path.glob("*")`. -/

structure MountEnv where
  resolvePath : String → String
  pathExists : String → Bool
  isDir : String → Bool
  readable : String → Bool
  mkdirResult : String → Except String Unit
  listDir : String → List String

/-- The result dictionary of `mount_directory`; success-only keys are
`Option`s / defaulted. -/
structure MountResult where
  success : Bool
  message : String
  details : String
  mounted_path : Option String
  workspace_path : Option String
  sample_files : List String
  total_files : Nat
deriving DecidableEq, Repr

/-- `PurePosixPath.is_absolute()`. -/
def isAbsolutePath (p : String) : Bool :=
  strStartsWith p "/"

/-- `mount_directory(directory_path)` (lines 106-186).  Note the source
resolves the path *before* the `is_absolute` check, and assigns
`MOUNTED_DIRECTORY` (line 159) *before* creating the `r_workspace`
subdirectory (line 163); an exception out of `mkdir` is caught by the
enclosing `try`/`except`, which returns the generic failure record with the
global already replaced.  Returns the result record and the new global. -/
def mount_directory (env : MountEnv) (st : Option String) (directory_path : String) :
    MountResult × Option String :=
  let mount_path := env.resolvePath directory_path
  if !isAbsolutePath mount_path then
    ({ success := false, message := "Path must be absolute",
       details := "Provided path: " ++ directory_path,
       mounted_path := none, workspace_path := none,
       sample_files := [], total_files := 0 }, st)
  else if !env.pathExists mount_path then
    ({ success := false, message := "Directory does not exist",
       details := "Path not found: " ++ mount_path,
       mounted_path := none, workspace_path := none,
       sample_files := [], total_files := 0 }, st)
  else if !env.isDir mount_path then
    ({ success := false, message := "Path is not a directory",
       details := "Path is a file: " ++ mount_path,
       mounted_path := none, workspace_path := none,
       sample_files := [], total_files := 0 }, st)
  else if !env.readable mount_path then
    ({ success := false, message := "No read permission for directory",
       details := "Cannot read: " ++ mount_path,
       mounted_path := none, workspace_path := none,
       sample_files := [], total_files := 0 }, st)
  else
    match env.mkdirResult (mount_path ++ "/r_workspace") with
    | .error e =>
      ({ success := false, message := "Failed to mount directory: " ++ e,
         details := "", mounted_path := none, workspace_path := none,
         sample_files := [], total_files := 0 }, some mount_path)
    | .ok _ =>
      ({ success := true, message := "Directory mounted successfully",
         details := "R operations will now use this directory as base path",
         mounted_path := some mount_path,
         workspace_path := some (mount_path ++ "/r_workspace"),
         sample_files := (env.listDir mount_path).take 5,
         total_files := (env.listDir mount_path).length }, some mount_path)

/-- `get_working_directory()` (lines 188-192): the mounted directory if the
global is set (a `Path` object is always truthy), else `Path.cwd()`. -/
def get_working_directory (cwd : String) (st : Option String) : String :=
  match st with
  | some d => d
  | none => cwd

/-- The four validation checks of `mount_directory` on the resolved path;
when they all pass, the global is replaced (whether or not the subsequent
`mkdir` succeeds). -/
def mountValidated (env : MountEnv) (p : String) : Bool :=
  let m := env.resolvePath p
  isAbsolutePath m && env.pathExists m && env.isDir m && env.readable m

/-- The state left by `mount_directory`: the resolved path when validation
passed, the previous state otherwise. -/
theorem mount_directory_state (env : MountEnv) (st : Option String) (p : String) :
    (mount_directory env st p).2 =
      if mountValidated env p then some (env.resolvePath p) else st := by
  unfold mount_directory mountValidated
  cases h1 : isAbsolutePath (env.resolvePath p) <;>
    cases h2 : env.pathExists (env.resolvePath p) <;>
      cases h3 : env.isDir (env.resolvePath p) <;>
        cases h4 : env.readable (env.resolvePath p) <;>
          simp [h1, h2, h3, h4] <;>
            cases env.mkdirResult (env.resolvePath p ++ "/r_workspace") <;> rfl

/-- A validated mount succeeds exactly when the workspace `mkdir` does not
raise. -/
theorem mount_directory_success (env : MountEnv) (st : Option String) (p : String) :
    (mount_directory env st p).1.success = true ↔
      mountValidated env p = true ∧
        ∃ u, env.mkdirResult (env.resolvePath p ++ "/r_workspace") = .ok u := by
  unfold mount_directory mountValidated
  cases h1 : isAbsolutePath (env.resolvePath p) <;>
    cases h2 : env.pathExists (env.resolvePath p) <;>
      cases h3 : env.isDir (env.resolvePath p) <;>
        cases h4 : env.readable (env.resolvePath p) <;>
          simp [h1, h2, h3, h4] <;>
            cases hm : env.mkdirResult (env.resolvePath p ++ "/r_workspace") <;>
              simp [hm]

/-- A sequence of `mount_directory` calls (each with its own filesystem
boundary) applied to the workspace global. -/
def runMounts (st : Option String) : List (MountEnv × String) → Option String
  | [] => st
  | (env, p) :: rest => runMounts (mount_directory env st p).2 rest

/-- Mounts that fail validation leave the workspace global unchanged. -/
theorem runMounts_invalid_id (st : Option String) (ops : List (MountEnv × String))
    (h : ∀ op ∈ ops, mountValidated op.1 op.2 = false) :
    runMounts st ops = st := by
  induction ops generalizing st with
  | nil => rfl
  | cons op rest ih =>
    have hop := h op (List.mem_cons_self op rest)
    have hrest : ∀ op ∈ rest, mountValidated op.1 op.2 = false :=
      fun o ho => h o (List.mem_cons_of_mem op ho)
    cases op with
    | mk env p =>
      show runMounts (mount_directory env st p).2 rest = st
      rw [mount_directory_state, if_neg (by simp [hop])]
      exact ih st hrest

/-- A boundary where the process works in `/home/user`, `/home/user/data` is
an existing readable directory, and directory creation succeeds.
`resolvePath` behaves like `Path.resolve()`: a relative path is resolved
against the working directory, so its result is always absolute. -/
def mountEnv0 : MountEnv :=
  { resolvePath := fun p => if strStartsWith p "/" then p else "/home/user/" ++ p
    pathExists := fun p => p = "/home/user/data"
    isDir := fun p => p = "/home/user/data"
    readable := fun p => p = "/home/user/data"
    mkdirResult := fun _ => .ok ()
    listDir := fun _ => [] }

/-- C1: the relative input `"data"` is not rejected.  `mount_directory`
resolves the argument before testing `is_absolute`, and `Path.resolve()`
always yields an absolute path, so the `"Path must be absolute"` branch is
unreachable and the non-absolute input mounts successfully — against the
function's own docstring (`must be absolute path`). -/
theorem mount_directory_accepts_relative_path :
    isAbsolutePath "data" = false ∧
    (mount_directory mountEnv0 none "data").1.success = true ∧
    (mount_directory mountEnv0 none "data").1.message =
      "Directory mounted successfully" ∧
    (mount_directory mountEnv0 none "data").2 = some "/home/user/data" := by
  decide

/-- A boundary where `/a` and `/b` are both valid mount targets but creating
`/b/r_workspace` raises (for instance `/b` is readable yet not writable). -/
def mountEnv1 : MountEnv :=
  { resolvePath := fun p => p
    pathExists := fun p => p = "/a" || p = "/b"
    isDir := fun p => p = "/a" || p = "/b"
    readable := fun p => p = "/a" || p = "/b"
    mkdirResult := fun p =>
      if p = "/b/r_workspace" then .error "Permission denied" else .ok ()
    listDir := fun _ => [] }

/-- C5 counterexample: after a successful mount of `/a`, a *failed* mount of
`/b` (its `r_workspace` `mkdir` raises after the global was already replaced
on line 159) makes `get_working_directory` return `/b`, not `/a` — so the
mounted directory does not persist until the next *successful* mount. -/
theorem resolve_changed_by_failed_mount :
    (mount_directory mountEnv1 none "/a").1.success = true ∧
    (mount_directory mountEnv1 (mount_directory mountEnv1 none "/a").2 "/b").1.success
      = false ∧
    get_working_directory "/cwd"
      (mount_directory mountEnv1 (mount_directory mountEnv1 none "/a").2 "/b").2
      = "/b" := by
  decide

/-- C5 amended: after a successful `mount_directory`, `get_working_directory`
returns the resolved mounted directory until another mount *that passes the
four validation checks* replaces it (a validated mount replaces the workspace
even when it then fails in `mkdir`); and while no mount has ever passed
validation, `get_working_directory` returns the process working directory. -/
theorem resolve_tracks_validated_mounts (cwd : String) :
    (∀ (env : MountEnv) (p : String) (st : Option String)
      (ops : List (MountEnv × String)),
      (mount_directory env st p).1.success = true →
      (∀ op ∈ ops, mountValidated op.1 op.2 = false) →
      get_working_directory cwd (runMounts (mount_directory env st p).2 ops) =
        env.resolvePath p) ∧
    (∀ ops : List (MountEnv × String),
      (∀ op ∈ ops, mountValidated op.1 op.2 = false) →
      get_working_directory cwd (runMounts none ops) = cwd) := by
  constructor
  · intro env p st ops hs hops
    have hv := ((mount_directory_success env st p).1 hs).1
    rw [mount_directory_state, if_pos hv, runMounts_invalid_id _ ops hops]
    rfl
  · intro ops hops
    rw [runMounts_invalid_id none ops hops]
    rfl

/-- Witness for `resolve_tracks_validated_mounts`: a mounted `/a` survives a
mount attempt of a relative path, and with no validated mount the resolver
falls back to the working directory. -/
theorem resolve_tracks_validated_mounts_witness :
    get_working_directory "/cwd"
      (runMounts (mount_directory mountEnv1 none "/a").2 [(mountEnv1, "rel")]) = "/a" ∧
    get_working_directory "/cwd" (runMounts none [(mountEnv1, "/nope")]) = "/cwd" :=
  ⟨(resolve_tracks_validated_mounts "/cwd").1 mountEnv1 "/a" none
      [(mountEnv1, "rel")] (by decide) (by decide),
    (resolve_tracks_validated_mounts "/cwd").2 [(mountEnv1, "/nope")] (by decide)⟩

/-! ### Execution backends and Script Composer
(src/r_server.py lines 503-796)

The Rscript subprocess, the Docker client, the per-call temporary directory
and the artifact encoder are the boundary, collected in `ExecEnv`.  Braces
and apostrophes inside the generated R code are written with `\x7b`, `\x7d`
and `\x27` escapes. -/

/-- Outcome of `subprocess.run(["Rscript", path], timeout=...)`: normal
completion, `subprocess.TimeoutExpired`, or `FileNotFoundError`. -/
inductive LocalOutcome where
  | completed (stdout stderr : String) (returncode : Int)
  | timedOut
  | rscriptMissing
deriving DecidableEq, Repr

/-- Outcome of the Docker client call in `_run_docker_container` /
`execute_r_script_docker`. -/
inductive DockerOutcome where
  | ran (output : String)
  | containerError (stderr : String) (exit_status : Int)
  | imageNotFound
  | dockerException (msg : String)
  | otherError (msg : String)
deriving DecidableEq, Repr

/-- The external-process boundary.  `dockerRun` receives only the script: the
source's `execute_r_script_docker(r_code, host_temp_dir=None)` has no timeout
parameter at all. -/
structure ExecEnv where
  localRun : String → Int → LocalOutcome
  dockerRun : String → DockerOutcome
  tempDir : String
  readFile : String → Option (List Nat)
  b64encode : List Nat → String

/-- The Python exceptions surfacing at the tool boundary. -/
inductive PyErr where
  | valueError (msg : String)
  | runtimeError (msg : String)
deriving DecidableEq, Repr

/-- `execute_r_script_local(r_code, timeout)` (lines 565-593): runs the
script, mapping a timeout and a missing interpreter to exit status `-1` with
a descriptive stderr.  The temporary script file is created and removed on
every path and does not affect the returned triple. -/
def execute_r_script_local (env : ExecEnv) (r_code : String) (timeout : Int) :
    String × String × Int :=
  match env.localRun r_code timeout with
  | .completed o e c => (o, e, c)
  | .timedOut =>
    ("", "Script execution timed out after " ++ toString timeout ++ " seconds", -1)
  | .rscriptMissing =>
    ("", "R is not installed or not in PATH. Please install R and ensure \x27Rscript\x27 is available.", -1)

/-- `execute_r_script_docker(r_code, host_temp_dir)` together with
`_run_docker_container` (lines 503-563): a clean run yields
`(output, "", 0)`, a `ContainerError` yields the container's stderr and exit
status, and the three remaining failure shapes raise `RuntimeError`
(the `.error` case). -/
def execute_r_script_docker (env : ExecEnv) (r_code : String) :
    Except String (String × String × Int) :=
  match env.dockerRun r_code with
  | .ran output => .ok (output, "", 0)
  | .containerError stderr exit_status => .ok ("", stderr, exit_status)
  | .imageNotFound =>
    .error "Docker image \x27r-base:latest\x27 not found. Please pull it with: docker pull r-base"
  | .dockerException m => .error ("Docker execution failed: " ++ m)
  | .otherError m => .error ("Unexpected error during Docker execution: " ++ m)

/-- The `enhanced_code` template of `execute_r_script` (lines 740-772):
workspace setup, the uploaded-file helper, then the verbatim user code. -/
def enhanced_code (base_dir code : String) : String :=
  "\n# Smart file handling setup\nbase_dir <- \"" ++ base_dir ++
  "\"\nsetwd(base_dir)\nworkspace_dir <- file.path(base_dir, \"r_workspace\")\n\nif (dir.exists(workspace_dir)) \x7b\n  # List available uploaded files\n  workspace_files <- list.files(workspace_dir, full.names = FALSE)\n  if (length(workspace_files) > 0) \x7b\n    cat(\"📁 Available uploaded files:\", paste(workspace_files, collapse=\", \"), \"\\n\")\n    \n    # Helper function to read files from workspace\n    read_workspace_file <- function(filename) \x7b\n      file_path <- file.path(workspace_dir, filename)\n      if (file.exists(file_path)) \x7b\n        return(file_path)\n      \x7d else \x7b\n        # Try to find similar files\n        similar_files <- workspace_files[grepl(gsub(\"\\\\..*\", \"\", filename), workspace_files, ignore.case = TRUE)]\n        if (length(similar_files) > 0) \x7b\n          cat(\"⚠️ File \x27\", filename, \"\x27 not found, but similar files available: \", paste(similar_files, collapse=\", \"), \"\\n\")\n          return(file.path(workspace_dir, similar_files[1]))\n        \x7d\n        return(NULL)\n      \x7d\n    \x7d\n  \x7d\n\x7d\n\n# Original user code\n" ++
  code ++ "\n"

/-- The rendering output formats (the `OutputFormat` literal type). -/
inductive OutputFormat where
  | png
  | jpeg
  | pdf
  | svg
deriving DecidableEq, Repr

/-- The format tag as a string (used in the output filename and result). -/
def OutputFormat.tag : OutputFormat → String
  | .png => "png"
  | .jpeg => "jpeg"
  | .pdf => "pdf"
  | .svg => "svg"

/-- The fixed format-to-MIME table of `render_ggplot`. -/
def mimeTypeOf : OutputFormat → String
  | .png => "image/png"
  | .jpeg => "image/jpeg"
  | .pdf => "application/pdf"
  | .svg => "image/svg+xml"

/-- The `r_script` template of `render_ggplot` (lines 637-666): library
loads, workspace setup, the numeric parameter bindings, the verbatim user
code and the trailing `ggsave`. -/
def render_script (base_dir code : String) (width height resolution : Int)
    (output_path : String) : String :=
  "\n# Load required libraries\nlibrary(ggplot2)\nlibrary(cowplot)\n\n# Set working directory based on mounted path\nbase_dir <- \"" ++ base_dir ++
  "\"\nsetwd(base_dir)\nworkspace_dir <- file.path(base_dir, \"r_workspace\")\n\nif (dir.exists(workspace_dir)) \x7b\n  workspace_files <- list.files(workspace_dir, full.names = TRUE)\n  if (length(workspace_files) > 0) \x7b\n    cat(\"Found uploaded files:\", paste(basename(workspace_files), collapse=\", \"), \"\\n\")\n  \x7d\n\x7d\n\n# Set output parameters\nwidth <- " ++
  toString width ++ "\nheight <- " ++ toString height ++ "\ndpi <- " ++
  toString resolution ++ "\noutput_file <- \"" ++ output_path ++
  "\"\npdf(NULL)\n\n# Execute the provided code\n" ++ code ++
  "\n\n# Save the last plot\nggsave(output_file, width = width/dpi, height = height/dpi, dpi = dpi)\n"

/-- Side effects of one `render_ggplot` call, in order: the claims about
"before any temporary file is created or subprocess started" are statements
about this trace. -/
inductive REffect where
  | createTempDir
  | writeScript (content : String)
  | runLocal (script : String) (timeout : Int)
  | runDocker (script : String)
  | readArtifact (path : String)
deriving DecidableEq, Repr

/-- The structured image result of `render_ggplot`. -/
structure RenderResult where
  type : String
  format : String
  data : String
  mime_type : String
  width : Int
  height : Int
  resolution : Int
deriving DecidableEq, Repr

/-- `render_ggplot(code, output_type, width, height, resolution, use_docker)`
(lines 595-712): argument validation, then temporary directory, script file,
one backend run (local timeout fixed at 60), artifact check, base64 encoding.
`ValueError`s and `RuntimeError`s propagate to the caller (`.error`); the
second component is the effect trace. -/
def render_ggplot (env : ExecEnv) (base_dir : String) (code : String)
    (output_type : OutputFormat) (width height resolution : Int)
    (use_docker : Bool) : Except PyErr RenderResult × List REffect :=
  if pyStrip code = "" then (.error (.valueError "Code is required"), [])
  else if width < 100 ∨ width > 5000 then
    (.error (.valueError "Width must be between 100 and 5000"), [])
  else if height < 100 ∨ height > 5000 then
    (.error (.valueError "Height must be between 100 and 5000"), [])
  else if resolution < 72 ∨ resolution > 600 then
    (.error (.valueError "Resolution must be between 72 and 600"), [])
  else
    let output_path := env.tempDir ++ "/output." ++ output_type.tag
    let r_script := render_script base_dir code width height resolution output_path
    let runEffect := if use_docker then REffect.runDocker r_script
      else REffect.runLocal r_script 60
    let effects := [REffect.createTempDir, REffect.writeScript r_script, runEffect]
    let runResult : Except String (String × String × Int) :=
      if use_docker then execute_r_script_docker env r_script
      else .ok (execute_r_script_local env r_script 60)
    match runResult with
    | .error m => (.error (.runtimeError m), effects)
    | .ok (_, stderr, returncode) =>
      if returncode ≠ 0 then
        (.error (.runtimeError ("R script execution failed: " ++ stderr)), effects)
      else
        match env.readFile output_path with
        | none =>
          (.error (.runtimeError "Output file was not created"),
            effects ++ [REffect.readArtifact output_path])
        | some image_data =>
          (.ok { type := "image", format := output_type.tag,
                 data := env.b64encode image_data,
                 mime_type := mimeTypeOf output_type,
                 width := width, height := height, resolution := resolution },
            effects ++ [REffect.readArtifact output_path])

/-- The result dictionary of `execute_r_script`. -/
structure ExecResult where
  success : Bool
  returncode : Int
  stdout : String
  stderr : String
  summary : String
deriving DecidableEq, Repr

/-- `execute_r_script(code, timeout, use_docker)` (lines 714-796): argument
validation (a raised `ValueError` is the `.error` case), the enhanced-code
template, one backend run, and the structured result; a `RuntimeError` from
the Docker path is caught and converted into a failure record with
`returncode = -1`. -/
def execute_r_script (env : ExecEnv) (base_dir : String) (code : String)
    (timeout : Int) (use_docker : Bool) : Except PyErr ExecResult :=
  if pyStrip code = "" then .error (.valueError "Code is required")
  else if timeout < 1 ∨ timeout > 300 then
    .error (.valueError "Timeout must be between 1 and 300 seconds")
  else
    let ec := enhanced_code base_dir code
    let runResult : Except String (String × String × Int) :=
      if use_docker then execute_r_script_docker env ec
      else .ok (execute_r_script_local env ec timeout)
    match runResult with
    | .ok (stdout, stderr, returncode) =>
      .ok { success := returncode == 0, returncode := returncode,
            stdout := stdout, stderr := stderr,
            summary := "Execution " ++
              (if returncode == 0 then "successful" else "failed") }
    | .error m =>
      .ok { success := false, returncode := -1, stdout := "", stderr := m,
            summary := "Execution failed" }

/-- A concrete process boundary used by the witnesses: the subprocess times
out when the timeout is one second and otherwise prints `hello` and exits
cleanly; Docker runs produce a fixed output. -/
def execEnv0 : ExecEnv :=
  { localRun := fun _ t => if t = 1 then .timedOut else .completed "hello" "" 0
    dockerRun := fun _ => .ran "docker-out"
    tempDir := "/tmp/ggplot-x"
    readFile := fun _ => none
    b64encode := fun _ => "" }

/-- C6: for non-blank code, an out-of-range width, height or resolution makes
`render_ggplot` raise the corresponding range `ValueError` with an empty
effect trace — before any temporary file is created or subprocess started. -/
theorem render_ggplot_range_validation (env : ExecEnv) (bd code : String)
    (ot : OutputFormat) (width height resolution : Int) (dk : Bool)
    (hcode : ¬ pyStrip code = "")
    (hrange : (width < 100 ∨ width > 5000) ∨ (height < 100 ∨ height > 5000) ∨
      (resolution < 72 ∨ resolution > 600)) :
    ∃ m, render_ggplot env bd code ot width height resolution dk =
        (.error (.valueError m), []) ∧
      (m = "Width must be between 100 and 5000" ∨
       m = "Height must be between 100 and 5000" ∨
       m = "Resolution must be between 72 and 600") := by
  unfold render_ggplot
  rw [if_neg hcode]
  by_cases hw : width < 100 ∨ width > 5000
  · rw [if_pos hw]
    exact ⟨_, rfl, Or.inl rfl⟩
  · rw [if_neg hw]
    by_cases hh : height < 100 ∨ height > 5000
    · rw [if_pos hh]
      exact ⟨_, rfl, Or.inr (Or.inl rfl)⟩
    · rw [if_neg hh]
      have hr : resolution < 72 ∨ resolution > 600 := by tauto
      rw [if_pos hr]
      exact ⟨_, rfl, Or.inr (Or.inr rfl)⟩

/-- Witness for `render_ggplot_range_validation` at `width = 50`. -/
theorem render_ggplot_range_validation_witness :
    ∃ m, render_ggplot execEnv0 "/w" "plot(1)" OutputFormat.png 50 300 96 false =
        (.error (.valueError m), []) ∧
      (m = "Width must be between 100 and 5000" ∨
       m = "Height must be between 100 and 5000" ∨
       m = "Resolution must be between 72 and 600") :=
  render_ggplot_range_validation execEnv0 "/w" "plot(1)" OutputFormat.png 50 300 96
    false (by decide) (Or.inl (Or.inl (by omega)))

/-- C7: on the local path with valid arguments, a completed subprocess is
passed through with `success ↔ returncode = 0`; a timeout yields
`success = false`, `returncode = -1` and the timeout stderr; and every
returned record satisfies `success ↔ returncode = 0`. -/
theorem execute_r_script_local_results (env : ExecEnv) (bd code : String)
    (t : Int) (hcode : ¬ pyStrip code = "") (ht1 : 1 ≤ t) (ht2 : t ≤ 300) :
    (∀ o e c, env.localRun (enhanced_code bd code) t = .completed o e c →
      execute_r_script env bd code t false =
        .ok { success := c == 0, returncode := c, stdout := o, stderr := e,
              summary := "Execution " ++
                (if c == 0 then "successful" else "failed") }) ∧
    (env.localRun (enhanced_code bd code) t = .timedOut →
      execute_r_script env bd code t false =
        .ok { success := false, returncode := -1, stdout := "",
              stderr := "Script execution timed out after " ++ toString t ++ " seconds",
              summary := "Execution failed" }) ∧
    (∀ r, execute_r_script env bd code t false = .ok r →
      (r.success = true ↔ r.returncode = 0)) := by
  have hto : ¬ (t < 1 ∨ t > 300) := by omega
  refine ⟨?_, ?_, ?_⟩
  · intro o e c h
    simp [execute_r_script, hcode, hto, execute_r_script_local, h]
  · intro h
    simp [execute_r_script, hcode, hto, execute_r_script_local, h]
  · intro r hr
    cases hl : env.localRun (enhanced_code bd code) t with
    | completed o e c =>
      simp [execute_r_script, hcode, hto, execute_r_script_local, hl] at hr
      rw [← hr]
      simp
    | timedOut =>
      simp [execute_r_script, hcode, hto, execute_r_script_local, hl] at hr
      rw [← hr]
      simp
    | rscriptMissing =>
      simp [execute_r_script, hcode, hto, execute_r_script_local, hl] at hr
      rw [← hr]
      simp

/-- Witness for `execute_r_script_local_results`: a clean run and a one-second
timeout on the boundary `execEnv0`. -/
theorem execute_r_script_local_results_witness :
    execute_r_script execEnv0 "/w" "cat(1)" 60 false =
      .ok { success := true, returncode := 0, stdout := "hello", stderr := "",
            summary := "Execution successful" } ∧
    execute_r_script execEnv0 "/w" "cat(1)" 1 false =
      .ok { success := false, returncode := -1, stdout := "",
            stderr := "Script execution timed out after 1 seconds",
            summary := "Execution failed" } :=
  ⟨((execute_r_script_local_results execEnv0 "/w" "cat(1)" 60 (by decide)
      (by omega) (by omega)).1 "hello" "" 0 (by decide)),
   ((execute_r_script_local_results execEnv0 "/w" "cat(1)" 1 (by decide)
      (by omega) (by omega)).2.1 (by decide))⟩

/-- C8: on the Docker path the caller-specified timeout is unused beyond its
range validation — any two in-range timeouts produce identical results for
the same code. -/
theorem execute_r_script_docker_timeout_independent (env : ExecEnv)
    (bd code : String) (t1 t2 : Int)
    (h1a : 1 ≤ t1) (h1b : t1 ≤ 300) (h2a : 1 ≤ t2) (h2b : t2 ≤ 300) :
    execute_r_script env bd code t1 true = execute_r_script env bd code t2 true := by
  have k1 : ¬ (t1 < 1 ∨ t1 > 300) := by omega
  have k2 : ¬ (t2 < 1 ∨ t2 > 300) := by omega
  unfold execute_r_script
  by_cases hc : pyStrip code = ""
  · rw [if_pos hc, if_pos hc]
  · rw [if_neg hc, if_neg hc, if_neg k1, if_neg k2]
    rfl

/-- Witness for `execute_r_script_docker_timeout_independent` at the extreme
in-range timeouts 1 and 300. -/
theorem execute_r_script_docker_timeout_independent_witness :
    execute_r_script execEnv0 "/w" "cat(1)" 1 true =
      execute_r_script execEnv0 "/w" "cat(1)" 300 true :=
  execute_r_script_docker_timeout_independent execEnv0 "/w" "cat(1)" 1 300
    (by omega) (by omega) (by omega) (by omega)

/-! ### Package manager: `list_r_packages` (src/r_server.py lines 950-1036)

The interpreter subprocess is the boundary (`run` returns the captured
stdout, or the message of a raised exception, caught by the tool's
`except`).  The parsing of the captured output is translated verbatim;
note that the source splits each record chunk on the *literal two-character
sequence* backslash-n (`"\\n"` in the Python source, which is not a raw
string), not on a newline. -/

structure PkgEnv where
  run : String → Except String String

/-- One parsed package entry: the Python dict with optional keys. -/
structure PackageInfo where
  name : Option String
  version : Option String
  title : Option String
deriving DecidableEq, Repr

/-- The result dictionary of `list_r_packages`. -/
structure PkgListResult where
  success : Bool
  packages : List PackageInfo
  count : Nat
  message : String
deriving DecidableEq, Repr

/-- The R script issued when `installed_only=True` (lines 967-983), with the
filter pattern interpolated twice. -/
def installed_list_script (pattern : String) : String :=
  "\n            installed <- as.data.frame(installed.packages())\n            if (\"" ++
  pattern ++ "\" != \"\") \x7b\n              installed <- installed[grepl(\"" ++
  pattern ++ "\", installed$Package, ignore.case=TRUE), ]\n            \x7d\n            \n            if (nrow(installed) > 0) \x7b\n              for(i in 1:nrow(installed)) \x7b\n                cat(\"PACKAGE:\", installed$Package[i], \"\\n\")\n                cat(\"VERSION:\", installed$Version[i], \"\\n\")\n                cat(\"TITLE:\", installed$Title[i], \"\\n\")\n                cat(\"---\\n\")\n              \x7d\n            \x7d else \x7b\n              cat(\"NO_PACKAGES\\n\")\n            \x7d\n            "

/-- The R script issued when `installed_only=False` (lines 985-988). -/
def available_list_script : String :=
  "\n            available <- available.packages()\n            cat(\"AVAILABLE_PACKAGES:\", nrow(available), \"\\n\")\n            "

/-- The body of the per-chunk line loop (lines 1012-1018): an `if`/`elif`
chain updating the entry dict. -/
def parseChunkLine (info : PackageInfo) (line : String) : PackageInfo :=
  if strContains line "PACKAGE:" then
    { info with name := some (pyStrip (pyGet (pySplit line "PACKAGE:") 1)) }
  else if strContains line "VERSION:" then
    { info with version := some (pyStrip (pyGet (pySplit line "VERSION:") 1)) }
  else if strContains line "TITLE:" then
    { info with title := some (pyStrip (pyGet (pySplit line "TITLE:") 1)) }
  else info

/-- Python truthiness of `package_info.get("name")`: present and non-empty. -/
def pkgNameTruthy : Option String → Bool
  | some s => !(s == "")
  | none => false

/-- The stdout parser of `list_r_packages` (lines 1005-1021): split the
captured output on `"---"`, and for each chunk containing `"PACKAGE:"` split
the stripped chunk on the literal two-character string backslash-n (the
source's non-raw `"\\n"`), feed every piece through the `if`/`elif` chain,
and keep the entry when its `name` is truthy. -/
def parse_packages (stdout : String) : List PackageInfo :=
  if strContains stdout "PACKAGE:" then
    (pySplit stdout "---").foldl (fun packages chunk =>
      if strContains chunk "PACKAGE:" then
        let info := (pySplit (pyStrip chunk) "\\n").foldl parseChunkLine
          { name := none, version := none, title := none }
        if pkgNameTruthy info.name then packages ++ [info] else packages
      else packages) []
  else []

/-- `list_r_packages(installed_only, pattern)` (lines 950-1036). -/
def list_r_packages (env : PkgEnv) (installed_only : Bool) (pattern : String) :
    PkgListResult :=
  let script := if installed_only then installed_list_script pattern
    else available_list_script
  match env.run script with
  | .error e =>
    { success := false, packages := [], count := 0,
      message := "Error listing packages: " ++ e }
  | .ok out =>
    if strContains out "NO_PACKAGES" then
      { success := true, packages := [], count := 0,
        message := "No packages found matching criteria" }
    else
      let packages := parse_packages out
      { success := true, packages := packages, count := packages.length,
        message := "Found " ++ toString packages.length ++ " packages" }

/-- The interpreter output for one installed package, exactly as the issued R
script prints it (`cat` separates its arguments with spaces and `"\n"` in R
is a newline). -/
def pkgEnv0 : PkgEnv :=
  { run := fun _ =>
      .ok "PACKAGE: ggplot2 \nVERSION: 3.5.1 \nTITLE: Elegant Graphics \n---\n" }

/-- C9: on a well-formed interpreter output of newline-separated `PACKAGE:`,
`VERSION:`, `TITLE:` lines, `list_r_packages` does not produce the three
fields — the record chunk is split on the literal backslash-n sequence, which
never occurs, so the whole chunk stays one "line", only the `PACKAGE:` branch
of the `if`/`elif` chain fires, the `name` field swallows the version and
title text, and `version`/`title` are never set. -/
theorem list_r_packages_flattens_record :
    (list_r_packages pkgEnv0 true "").packages =
      [{ name := some "ggplot2 \nVERSION: 3.5.1 \nTITLE: Elegant Graphics",
         version := none, title := none }] ∧
    (list_r_packages pkgEnv0 true "").success = true ∧
    (list_r_packages pkgEnv0 true "").count = 1 := by
  decide

end RServer
